import Mathlib

/-
Verification of the MCP session/routing layer of src/main.py.

The embedding translates the session-keyed bookkeeping of the source:
Python dicts become insertion-ordered association lists, awaited external
calls (session.list_tools, plugin.connect, plugin.disconnect,
mcp_session.call_tool, chat_completion_service.get_chat_message_content)
become explicit parameters carrying the outcome the awaited call would
produce, with a raised Python exception modeled as Except.error.
-/

namespace SkMcp

/-- A tool as advertised by an MCP server in the result of session.list_tools:
the fields read by extract_mcp_tools (src/main.py lines 119-127). -/
structure McpTool where
  name : String
  description : String
  inputSchema : String
deriving DecidableEq

/-- The dictionary built for each tool by extract_mcp_tools and stored in the
mcp_tools session map; its keys are exactly name, description, input_schema. -/
structure ToolDict where
  name : String
  description : String
  input_schema : String
deriving DecidableEq

/-- extract_mcp_tools (src/main.py lines 119-127): a list comprehension over
tools_list producing, in order, the three-key dictionary for each tool. -/
def extract_mcp_tools (tools_list : List McpTool) : List ToolDict :=
  tools_list.map (fun tool => ⟨tool.name, tool.description, tool.inputSchema⟩)

/-- A Python dict modeled as an insertion-ordered association list with unique
keys.  d.get(k) / d[k] lookup: first (hence, on a genuine dict, only) entry. -/
def dict_get {α : Type} (d : List (String × α)) (k : String) : Option α :=
  match d with
  | [] => none
  | (k0, v0) :: rest => if k0 = k then some v0 else dict_get rest k

/-- Python d[k] = v: update in place when the key exists (position kept,
as dict insertion order is preserved on update), append otherwise. -/
def dict_set {α : Type} (d : List (String × α)) (k : String) (v : α) :
    List (String × α) :=
  match d with
  | [] => [(k, v)]
  | (k0, v0) :: rest =>
      if k0 = k then (k, v) :: rest else (k0, v0) :: dict_set rest k v

/-- Python del d[k]: removes the (on a genuine dict unique) entry with key k. -/
def dict_del {α : Type} (d : List (String × α)) (k : String) :
    List (String × α) :=
  match d with
  | [] => []
  | (k0, v0) :: rest => if k0 = k then rest else (k0, v0) :: dict_del rest k

/-- The dict invariant of Python: keys occur at most once. -/
def nodup_keys {α : Type} (d : List (String × α)) : Prop :=
  (d.map Prod.fst).Nodup

instance {α : Type} (d : List (String × α)) : Decidable (nodup_keys d) := by
  unfold nodup_keys
  infer_instance

/-- The mcp_tools session map: connection name to the extracted tool dicts,
in connection registration (dict insertion) order. -/
abbrev McpToolsMap := List (String × List ToolDict)

/-- find_mcp_for_tool (src/main.py lines 196-204): iterate mcp_tools.items()
in insertion order and return the first connection whose stored tool list
contains a dict whose name equals tool_name. -/
def find_mcp_for_tool (mcp_tools : McpToolsMap) (tool_name : String) :
    Option String :=
  match mcp_tools with
  | [] => none
  | (connection_name, tools) :: rest =>
      if tools.any (fun tool => tool.name == tool_name) then
        some connection_name
      else
        find_mcp_for_tool rest tool_name

/-- One character of the json.dumps string escape: backslash (code 92) and
double quote (code 34) are escaped; escaping of control characters and
non-ASCII characters is not needed for the payloads at hand and is omitted. -/
def json_escape_char (c : Char) : String :=
  if c.toNat = 92 then "\\\\"
  else if c.toNat = 34 then "\\\""
  else String.singleton c

/-- json.dumps string escaping, applied character by character. -/
def json_escape (s : String) : String :=
  String.join (s.toList.map json_escape_char)

/-- json.dumps applied to the one-key error dict used by call_tool
(src/main.py lines 229, 236, 246): the serialized object text. -/
def json_dumps_error (msg : String) : String :=
  "\x7b\"error\": \"" ++ json_escape msg ++ "\"\x7d"

/-- The tool_use argument of call_tool: the requested tool name and its
input payload (the input dict, kept opaque as a string). -/
structure ToolUse where
  name : String
  input : String

/-- cl.context.session.mcp_sessions: connection name to the live session.
The session is modeled by the behavior of its call_tool coroutine: given the
tool name and input it either returns an output (Except.ok) or raises
(Except.error, covering transport failure, timeout, or an in-call raise). -/
abbrev SessionMap := List (String × (String → String → Except String String))

/-- The try block of call_tool (src/main.py lines 224-242), with a raised
exception modeled as Except.error in the first component.  The second
component records on which connections a session call_tool invocation was
actually performed (the await on line 242). -/
def call_tool_try (mcp_tools : McpToolsMap) (mcp_sessions : SessionMap)
    (tool_use : ToolUse) : Except String String × List String :=
  match find_mcp_for_tool mcp_tools tool_use.name with
  | none =>
      (Except.ok (json_dumps_error
        ("Tool " ++ tool_use.name ++ " not found in any MCP connection")), [])
  | some mcp_name =>
      match dict_get mcp_sessions mcp_name with
      | none =>
          (Except.ok (json_dumps_error
            ("MCP session " ++ mcp_name ++ " not found")), [])
      | some behavior =>
          match behavior tool_use.name tool_use.input with
          | Except.ok out => (Except.ok out, [mcp_name])
          | Except.error e => (Except.error e, [mcp_name])

/-- The value call_tool leaves in current_step.output and returns, together
with the record of performed session invocations. -/
structure CallToolOutcome where
  output : String
  session_calls : List String
deriving DecidableEq

/-- call_tool (src/main.py lines 207-249): run the try block; the except
Exception handler (lines 244-247) converts any raise into the serialized
error payload, so the function is total into plain data. -/
def call_tool (mcp_tools : McpToolsMap) (mcp_sessions : SessionMap)
    (tool_use : ToolUse) : CallToolOutcome :=
  match call_tool_try mcp_tools mcp_sessions tool_use with
  | (Except.ok out, calls) => ⟨out, calls⟩
  | (Except.error e, calls) =>
      ⟨json_dumps_error
        ("Error executing tool " ++ tool_use.name ++ ": " ++ e), calls⟩

/-- The mutable state touched by the MCP lifecycle handlers: the mcp_tools
and mcp_plugins session maps, and the set of plugins registered on the global
kernel object.  A plugin is identified by its name (the connection name, as
passed to MCPSsePlugin on src/main.py line 174); the kernel stores plugins in
a name-keyed collection, so its registered names are what matters here. -/
structure AppState where
  mcp_tools : McpToolsMap
  mcp_plugins : List (String × String)
  kernel_plugins : List String
deriving DecidableEq

/-- kernel.add_plugin stores the plugin under its name in the name-keyed
plugin collection of the kernel: a fresh name is appended; re-adding an
already registered name leaves the registered name set unchanged. -/
def kernel_add_plugin (plugins : List String) (name : String) : List String :=
  if name ∈ plugins then plugins else plugins ++ [name]

/-- on_mcp_connect (src/main.py lines 130-159) together with
_integrate_mcp_with_kernel (lines 162-193).  list_tools_result is the outcome
of the awaited session.list_tools (Except.error = it raised, caught by the
outer handler on line 156 before mcp_tools is touched); url is
connection.url (None makes line 168 raise, caught on line 190);
plugin_connect_result is the outcome of the awaited mcp_plugin.connect on
line 179 (Except.error = it raised, caught on line 190, so neither the
kernel nor mcp_plugins is touched).  Note that mcp_tools is populated on
lines 149-151 before integration, so a failed integration still leaves the
tools stored. -/
def on_mcp_connect (s : AppState) (connection_name : String)
    (url : Option String) (list_tools_result : Except String (List McpTool))
    (plugin_connect_result : Except String Unit) : AppState :=
  match list_tools_result with
  | Except.error _ => s
  | Except.ok tools_list =>
      let tools := extract_mcp_tools tools_list
      let s2 : AppState :=
        ⟨dict_set s.mcp_tools connection_name tools,
         s.mcp_plugins, s.kernel_plugins⟩
      match url with
      | none => s2
      | some _ =>
          match plugin_connect_result with
          | Except.error _ => s2
          | Except.ok _ =>
              ⟨s2.mcp_tools,
               dict_set s2.mcp_plugins connection_name connection_name,
               kernel_add_plugin s2.kernel_plugins connection_name⟩

/-- First block of on_mcp_disconnect (src/main.py lines 367-371): if the
connection is in mcp_tools, delete its entry. -/
def disconnect_tools_step (s : AppState) (connection_name : String) :
    AppState :=
  match dict_get s.mcp_tools connection_name with
  | some _ =>
      ⟨dict_del s.mcp_tools connection_name, s.mcp_plugins, s.kernel_plugins⟩
  | none => s

/-- Second block of on_mcp_disconnect (src/main.py lines 373-391):
if the connection is in mcp_plugins, await plugin.disconnect() (line 380;
skipped without raising when the plugin lacks the attribute, which
disconnect_call = Except.ok also covers) and then delete the entry
(line 385).  When the disconnect call raises, the except handler on
line 393 catches it and the deletion on line 385 never runs.  The kernel
object is not touched on any path. -/
def disconnect_plugins_step (s : AppState) (connection_name : String)
    (disconnect_call : Except String Unit) : AppState :=
  match dict_get s.mcp_plugins connection_name with
  | none => s
  | some _ =>
      match disconnect_call with
      | Except.error _ => s
      | Except.ok _ =>
          ⟨s.mcp_tools, dict_del s.mcp_plugins connection_name,
           s.kernel_plugins⟩

/-- on_mcp_disconnect (src/main.py lines 355-396): the tools block followed
by the plugin cleanup block. -/
def on_mcp_disconnect (s : AppState) (connection_name : String)
    (disconnect_call : Except String Unit) : AppState :=
  disconnect_plugins_step (disconnect_tools_step s connection_name)
    connection_name disconnect_call

/-- A lifecycle event delivered to the handlers, with the outcomes of the
awaited external calls it entails. -/
inductive McpEvent where
  | connect (name : String) (url : Option String)
      (list_tools_result : Except String (List McpTool))
      (plugin_connect_result : Except String Unit)
  | disconnect (name : String) (disconnect_call : Except String Unit)

/-- Dispatch one lifecycle event to its handler. -/
def apply_event (s : AppState) : McpEvent → AppState
  | McpEvent.connect n u lt pc => on_mcp_connect s n u lt pc
  | McpEvent.disconnect n dc => on_mcp_disconnect s n dc

/-- A process lifetime: the lifecycle events applied in order. -/
def apply_events (s : AppState) (evs : List McpEvent) : AppState :=
  evs.foldl apply_event s

/-- Message roles of the chat history. -/
inductive Role where
  | user
  | assistant
  | tool
deriving DecidableEq

/-- One entry of the ChatHistory object. -/
structure ChatMessage where
  role : Role
  content : String
deriving DecidableEq

/-- The ChatMessageContent returned by the awaited
chat_completion_service.get_chat_message_content on src/main.py line 324:
its text content (what str(response) yields) and the function-call items it
still carries, by name.  With FunctionChoiceBehavior.Auto the tool-call
rounds run inside the service; on_message only sees the returned message. -/
structure ChatResponse where
  content : String
  tool_calls : List String
deriving DecidableEq

/-- The session state on_message leaves behind: the chat history, the logs
held by the capturing handler, and the number of call_tool invocations
performed by on_message itself.  The body of on_message (src/main.py lines
294-352) contains no call site of call_tool, so that count is zero by
construction of the source. -/
structure TurnOutcome where
  history : List ChatMessage
  logs : List String
  call_tool_invocations : Nat
deriving DecidableEq

/-- on_message (src/main.py lines 294-352).  history0 is the stored
"history" session value (none = missing, replaced by a fresh ChatHistory on
line 309; a falsy empty history is likewise replaced by an equal fresh one);
logs0 is whatever the capturing handler still holds from earlier turns,
discarded by capturing_handler.clear() on line 315.  The awaited
get_chat_message_content on line 324 receives history by reference and,
with FunctionChoiceBehavior.Auto, its auto function-calling rounds append
messages to that history in place — per tool round, the assistant message
carrying the function-call requests followed by the tool-result messages;
svc_appended are exactly the messages it so appends before returning or
raising (empty when the model requests no tool calls during the turn).
svc_result is its outcome (Except.error = it raised, caught by the inner
handler on line 344, which sends an error message and appends nothing
further; the in-place appends made before the raise remain); svc_logs are
the log records the capturing handler receives during that awaited call.
On success, on_message appends the returned final response itself on
line 331. -/
def on_message (history0 : Option (List ChatMessage)) (logs0 : List String)
    (msg_content : String) (svc_appended : List ChatMessage)
    (svc_result : Except String ChatResponse)
    (svc_logs : List String) : TurnOutcome :=
  let history := match history0 with
    | none => []
    | some h => h
  let history := history ++ [⟨Role.user, msg_content⟩]
  let logs : List String := []
  let history := history ++ svc_appended
  match svc_result with
  | Except.ok response =>
      ⟨history ++ [⟨Role.assistant, response.content⟩], logs ++ svc_logs, 0⟩
  | Except.error _ => ⟨history, logs ++ svc_logs, 0⟩

/-- Soundness of resolution: a returned connection name is the key of a
stored entry whose tool list advertises the requested name. -/
theorem find_mcp_for_tool_mem {d : McpToolsMap} {t c : String}
    (h : find_mcp_for_tool d t = some c) :
    ∃ tools, (c, tools) ∈ d ∧
      tools.any (fun tool => tool.name == t) = true := by
  induction d with
  | nil => exact absurd h (by simp [find_mcp_for_tool])
  | cons p rest ih =>
      obtain ⟨k0, tools0⟩ := p
      by_cases hadv : tools0.any (fun tool => tool.name == t) = true
      · rw [find_mcp_for_tool, if_pos hadv] at h
        obtain rfl : k0 = c := by injection h
        exact ⟨tools0, List.mem_cons_self _ _, hadv⟩
      · rw [find_mcp_for_tool, if_neg hadv] at h
        obtain ⟨tools, hm, ha⟩ := ih h
        exact ⟨tools, List.mem_cons_of_mem _ hm, ha⟩

/-- First registered advertiser wins: when no entry before (a, tools)
advertises the name, resolution returns a. -/
theorem find_mcp_for_tool_first (pre suf : McpToolsMap) (a t : String)
    (tools : List ToolDict)
    (ha : tools.any (fun tool => tool.name == t) = true)
    (hpre : ∀ p ∈ pre, p.2.any (fun tool => tool.name == t) = false) :
    find_mcp_for_tool (pre ++ (a, tools) :: suf) t = some a := by
  induction pre with
  | nil => simp [find_mcp_for_tool, ha]
  | cons p rest ih =>
      obtain ⟨k0, tools0⟩ := p
      have h0 : tools0.any (fun tool => tool.name == t) = false :=
        hpre (k0, tools0) (List.mem_cons_self _ _)
      rw [List.cons_append, find_mcp_for_tool, if_neg (by simp [h0])]
      exact ih (fun q hq => hpre q (List.mem_cons_of_mem _ hq))

/-- When no stored entry advertises the name, resolution fails. -/
theorem find_mcp_for_tool_none {d : McpToolsMap} {t : String}
    (h : ∀ p ∈ d, p.2.any (fun tool => tool.name == t) = false) :
    find_mcp_for_tool d t = none := by
  induction d with
  | nil => rfl
  | cons p rest ih =>
      obtain ⟨k0, tools0⟩ := p
      have h0 : tools0.any (fun tool => tool.name == t) = false :=
        h (k0, tools0) (List.mem_cons_self _ _)
      rw [find_mcp_for_tool, if_neg (by simp [h0])]
      exact ih (fun q hq => h q (List.mem_cons_of_mem _ hq))

/-- Resolution never returns a name that keys no stored entry. -/
theorem find_mcp_for_tool_ne {d : McpToolsMap} {t c : String}
    (h : ∀ tools, (c, tools) ∉ d) : find_mcp_for_tool d t ≠ some c := by
  intro hf
  obtain ⟨tools, hm, _⟩ := find_mcp_for_tool_mem hf
  exact h tools hm

/-- A failed lookup means the key occurs nowhere in the association list. -/
theorem dict_get_none {α : Type} {d : List (String × α)} {k : String}
    (h : dict_get d k = none) : ∀ v, (k, v) ∉ d := by
  induction d with
  | nil => simp
  | cons p rest ih =>
      obtain ⟨k0, v0⟩ := p
      intro v hv
      by_cases hk : k0 = k
      · rw [dict_get, if_pos hk] at h
        exact Option.noConfusion h
      · rw [dict_get, if_neg hk] at h
        rcases List.mem_cons.mp hv with hh | hh
        · exact hk (congrArg Prod.fst hh).symm
        · exact ih h v hh

/-- Conversely, a key occurring nowhere fails to look up. -/
theorem dict_get_none_of_not_mem {α : Type} {d : List (String × α)}
    {k : String} (h : ∀ v, (k, v) ∉ d) : dict_get d k = none := by
  induction d with
  | nil => rfl
  | cons p rest ih =>
      obtain ⟨k0, v0⟩ := p
      rw [dict_get, if_neg (fun he : k0 = k =>
        h v0 (by rw [← he]; exact List.mem_cons_self _ _))]
      exact ih (fun v hv => h v (List.mem_cons_of_mem _ hv))

/-- Deleting a key from a genuine dict removes it entirely. -/
theorem dict_del_not_mem {α : Type} {d : List (String × α)} {k : String}
    (h : nodup_keys d) : ∀ v, (k, v) ∉ dict_del d k := by
  induction d with
  | nil => simp [dict_del]
  | cons p rest ih =>
      obtain ⟨k0, v0⟩ := p
      have hn : k0 ∉ rest.map Prod.fst ∧ nodup_keys rest := by
        have := h
        rw [nodup_keys, List.map_cons, List.nodup_cons] at this
        exact this
      intro v hv
      by_cases hk : k0 = k
      · rw [dict_del, if_pos hk] at hv
        exact (hk ▸ hn.1) (List.mem_map.mpr ⟨(k, v), hv, rfl⟩)
      · rw [dict_del, if_neg hk] at hv
        rcases List.mem_cons.mp hv with hh | hh
        · exact hk (congrArg Prod.fst hh).symm
        · exact ih hn.2 v hh

/-- The tools component left by on_mcp_disconnect holds no entry for the
disconnected connection (assuming the Python dict key invariant). -/
theorem on_mcp_disconnect_tools_gone (s : AppState) (c : String)
    (r : Except String Unit) (h : nodup_keys s.mcp_tools) :
    ∀ v, (c, v) ∉ (on_mcp_disconnect s c r).mcp_tools := by
  have htools : (on_mcp_disconnect s c r).mcp_tools
      = (disconnect_tools_step s c).mcp_tools := by
    unfold on_mcp_disconnect disconnect_plugins_step
    cases dict_get (disconnect_tools_step s c).mcp_plugins c with
    | none => rfl
    | some _ => cases r with
      | error e => rfl
      | ok u => rfl
  rw [htools]
  unfold disconnect_tools_step
  cases hg : dict_get s.mcp_tools c with
  | none => exact dict_get_none hg
  | some _ => exact dict_del_not_mem h

/-- on_mcp_disconnect leaves the kernel plugin collection untouched. -/
theorem on_mcp_disconnect_kernel_frame (s : AppState) (c : String)
    (r : Except String Unit) :
    (on_mcp_disconnect s c r).kernel_plugins = s.kernel_plugins := by
  unfold on_mcp_disconnect disconnect_plugins_step disconnect_tools_step
  cases dict_get s.mcp_tools c <;>
    · dsimp only
      split
      · rfl
      · cases r with
        | error e => rfl
        | ok u => rfl

/-- on_mcp_disconnect leaves the mcp_plugins map untouched except for the
deletion performed in its plugin block. -/
theorem on_mcp_disconnect_plugins_eq (s : AppState) (c : String)
    (r : Except String Unit) :
    (on_mcp_disconnect s c r).mcp_plugins
      = (disconnect_plugins_step
          ⟨(disconnect_tools_step s c).mcp_tools, s.mcp_plugins,
            s.kernel_plugins⟩ c r).mcp_plugins := by
  unfold on_mcp_disconnect disconnect_tools_step
  cases dict_get s.mcp_tools c <;> rfl

/-- After a disconnect whose plugin teardown does not raise, the mcp_plugins
map holds no entry for the connection (given the dict key invariant). -/
theorem on_mcp_disconnect_plugins_gone (s : AppState) (c : String)
    (h : nodup_keys s.mcp_plugins) :
    dict_get (on_mcp_disconnect s c (Except.ok ())).mcp_plugins c = none := by
  rw [on_mcp_disconnect_plugins_eq]
  unfold disconnect_plugins_step
  dsimp only
  cases hg : dict_get s.mcp_plugins c with
  | none => exact hg
  | some _ => exact dict_get_none_of_not_mem (dict_del_not_mem h)

/-- Any single lifecycle event can only grow the kernel plugin name set. -/
theorem apply_event_kernel_mono (s : AppState) (e : McpEvent) :
    ∀ x ∈ s.kernel_plugins, x ∈ (apply_event s e).kernel_plugins := by
  intro x hx
  cases e with
  | connect n u lt pc =>
      show x ∈ (on_mcp_connect s n u lt pc).kernel_plugins
      unfold on_mcp_connect
      cases lt with
      | error e0 => exact hx
      | ok tl =>
          cases u with
          | none => exact hx
          | some u0 =>
              cases pc with
              | error e0 => exact hx
              | ok u1 =>
                  show x ∈ kernel_add_plugin s.kernel_plugins n
                  unfold kernel_add_plugin
                  split
                  · exact hx
                  · exact List.mem_append_left _ hx
  | disconnect n dc =>
      show x ∈ (on_mcp_disconnect s n dc).kernel_plugins
      rw [on_mcp_disconnect_kernel_frame]
      exact hx

/-- Over any sequence of lifecycle events, the kernel plugin name set is
monotonically non-decreasing. -/
theorem apply_events_kernel_mono (evs : List McpEvent) (s : AppState) :
    ∀ x ∈ s.kernel_plugins, x ∈ (apply_events s evs).kernel_plugins := by
  induction evs generalizing s with
  | nil => exact fun x hx => hx
  | cons e rest ih =>
      intro x hx
      have h1 := apply_event_kernel_mono s e x hx
      exact ih (apply_event s e) x h1

/-- C1 counterexample: with two registered (hence active) connections a and b
that both advertise tool x, the descriptor owned by b does not resolve to b —
find_mcp_for_tool returns a — so resolvability to the owning server is not
equivalent to the owning connection being active. -/
theorem c1_collision_counterexample :
    (("b", [(⟨"x", "d", "s"⟩ : ToolDict)]) ∈
        ([("a", [⟨"x", "d", "s"⟩]), ("b", [⟨"x", "d", "s"⟩])] : McpToolsMap))
  ∧ ([(⟨"x", "d", "s"⟩ : ToolDict)].any (fun tool => tool.name == "x") = true)
  ∧ find_mcp_for_tool
      ([("a", [⟨"x", "d", "s"⟩]), ("b", [⟨"x", "d", "s"⟩])] : McpToolsMap) "x"
      = some "a"
  ∧ (some "a" : Option String) ≠ some "b" := by
  refine ⟨by simp, by decide, rfl, by decide⟩

/-- C1 (amended): a tool name resolves through find_mcp_for_tool to a server
only if that server has a live entry in mcp_tools advertising the name
(resolvable implies active); an active server owning the name does resolve
provided no earlier-registered connection advertises the same name; and after
a disconnect event for a connection — on every path of on_mcp_disconnect,
including a raising plugin teardown — no tool name resolves to that
connection any more, with no stale window. -/
theorem c1_resolution_amended (s : AppState) (t c : String)
    (r : Except String Unit) (hnd : nodup_keys s.mcp_tools) :
    (find_mcp_for_tool s.mcp_tools t = some c →
       ∃ tools, (c, tools) ∈ s.mcp_tools ∧
         tools.any (fun tool => tool.name == t) = true)
  ∧ (∀ pre tools suf,
       s.mcp_tools = pre ++ (c, tools) :: suf →
       tools.any (fun tool => tool.name == t) = true →
       (∀ p ∈ pre, p.2.any (fun tool => tool.name == t) = false) →
       find_mcp_for_tool s.mcp_tools t = some c)
  ∧ find_mcp_for_tool (on_mcp_disconnect s c r).mcp_tools t ≠ some c := by
  refine ⟨fun h => find_mcp_for_tool_mem h, ?_, ?_⟩
  · intro pre tools suf hsplit ha hpre
    rw [hsplit]
    exact find_mcp_for_tool_first pre suf c t tools ha hpre
  · exact find_mcp_for_tool_ne (on_mcp_disconnect_tools_gone s c r hnd)

/-- C1 witness: a concrete one-connection state with the dict key invariant;
after the disconnect event, the connection's tool no longer resolves to it. -/
theorem c1_resolution_amended_witness :
    nodup_keys ([("a", [(⟨"x", "d", "s"⟩ : ToolDict)])] : McpToolsMap)
  ∧ find_mcp_for_tool
      (on_mcp_disconnect
        ⟨[("a", [(⟨"x", "d", "s"⟩ : ToolDict)])], [], []⟩ "a"
        (Except.ok ())).mcp_tools "x" ≠ some "a" := by
  refine ⟨by decide, ?_⟩
  exact (c1_resolution_amended
    ⟨[("a", [(⟨"x", "d", "s"⟩ : ToolDict)])], [], []⟩ "x" "a"
    (Except.ok ()) (by decide)).2.2

/-- C2 counterexample: with three connections c, a, b registered in that
order, all advertising tool x, the pair (a, b) satisfies the claim as frozen
— a registered before b, both advertise x — yet resolution returns c, not a,
so the pairwise statement fails; only the overall first registered
advertiser wins. -/
theorem c2_pairwise_counterexample :
    (([("c", [⟨"x", "d", "s"⟩]), ("a", [⟨"x", "d", "s"⟩]),
        ("b", [⟨"x", "d", "s"⟩])] : McpToolsMap).get ⟨1, by decide⟩
      = ("a", [(⟨"x", "d", "s"⟩ : ToolDict)]))
  ∧ (([("c", [⟨"x", "d", "s"⟩]), ("a", [⟨"x", "d", "s"⟩]),
        ("b", [⟨"x", "d", "s"⟩])] : McpToolsMap).get ⟨2, by decide⟩
      = ("b", [(⟨"x", "d", "s"⟩ : ToolDict)]))
  ∧ ([(⟨"x", "d", "s"⟩ : ToolDict)].any (fun tool => tool.name == "x") = true)
  ∧ find_mcp_for_tool
      ([("c", [⟨"x", "d", "s"⟩]), ("a", [⟨"x", "d", "s"⟩]),
        ("b", [⟨"x", "d", "s"⟩])] : McpToolsMap) "x" ≠ some "a" := by
  refine ⟨rfl, rfl, by decide, by decide⟩

/-- C2 (amended): resolution is deterministic and returns the identifier of
the first-registered connection advertising the name: whenever connection a
advertises tool_name and no connection registered before a advertises it,
find_mcp_for_tool returns a — in particular a later-registered b advertising
the same name never wins over a. -/
theorem c2_first_registered_wins (pre suf : McpToolsMap) (a tool_name : String)
    (tools : List ToolDict)
    (ha : tools.any (fun tool => tool.name == tool_name) = true)
    (hpre : ∀ p ∈ pre, p.2.any (fun tool => tool.name == tool_name) = false) :
    find_mcp_for_tool (pre ++ (a, tools) :: suf) tool_name = some a :=
  find_mcp_for_tool_first pre suf a tool_name tools ha hpre

/-- C2 witness: a registered after z (which advertises only y) and before b;
resolution of x returns a, the first-registered advertiser. -/
theorem c2_first_registered_wins_witness :
    ([(⟨"x", "d", "s"⟩ : ToolDict)].any (fun tool => tool.name == "x") = true)
  ∧ (∀ p ∈ ([("z", [(⟨"y", "d", "s"⟩ : ToolDict)])] : McpToolsMap),
        p.2.any (fun tool => tool.name == "x") = false)
  ∧ find_mcp_for_tool
      (([("z", [(⟨"y", "d", "s"⟩ : ToolDict)])] : McpToolsMap)
        ++ ("a", [(⟨"x", "d", "s"⟩ : ToolDict)])
          :: [("b", [(⟨"x", "d", "s"⟩ : ToolDict)])]) "x" = some "a" := by
  refine ⟨by decide, by decide, ?_⟩
  exact c2_first_registered_wins [("z", [(⟨"y", "d", "s"⟩ : ToolDict)])]
    [("b", [(⟨"x", "d", "s"⟩ : ToolDict)])] "a" "x"
    [(⟨"x", "d", "s"⟩ : ToolDict)] (by decide) (by decide)

/-- C3: call_tool never lets a failure escape as an exception.  call_tool is
a total function into CallToolOutcome (the except Exception handler makes
the boundary exception-free by construction), and in the one place the try
block can raise — the awaited session call — the raised exception e is
reified into the serialized error payload that is returned as data: the try
block ends in Except.error e and call_tool returns the diagnostic payload,
having attempted exactly the one resolved session. -/
theorem c3_no_raise_past_boundary (mcp_tools : McpToolsMap)
    (mcp_sessions : SessionMap) (tool_use : ToolUse) (mcp_name : String)
    (behavior : String → String → Except String String) (e : String)
    (h1 : find_mcp_for_tool mcp_tools tool_use.name = some mcp_name)
    (h2 : dict_get mcp_sessions mcp_name = some behavior)
    (h3 : behavior tool_use.name tool_use.input = Except.error e) :
    call_tool_try mcp_tools mcp_sessions tool_use
      = (Except.error e, [mcp_name])
  ∧ call_tool mcp_tools mcp_sessions tool_use
      = ⟨json_dumps_error
          ("Error executing tool " ++ tool_use.name ++ ": " ++ e),
         [mcp_name]⟩ := by
  have ht : call_tool_try mcp_tools mcp_sessions tool_use
      = (Except.error e, [mcp_name]) := by
    simp only [call_tool_try, h1, h2, h3]
  exact ⟨ht, by simp only [call_tool, ht]⟩

/-- C3 witness: a session whose call raises a timeout; call_tool returns the
reified error payload instead of propagating. -/
theorem c3_no_raise_past_boundary_witness :
    find_mcp_for_tool ([("srv", [(⟨"x", "d", "s"⟩ : ToolDict)])] : McpToolsMap)
      (ToolUse.mk "x" "args").name = some "srv"
  ∧ dict_get ([("srv", fun _ _ => Except.error "timeout")] : SessionMap) "srv"
      = some (fun _ _ => Except.error "timeout")
  ∧ call_tool ([("srv", [(⟨"x", "d", "s"⟩ : ToolDict)])] : McpToolsMap)
      ([("srv", fun _ _ => Except.error "timeout")] : SessionMap)
      (ToolUse.mk "x" "args")
      = ⟨json_dumps_error
          ("Error executing tool " ++ (ToolUse.mk "x" "args").name
            ++ ": " ++ "timeout"), ["srv"]⟩ := by
  refine ⟨by decide, rfl, ?_⟩
  exact (c3_no_raise_past_boundary
    ([("srv", [(⟨"x", "d", "s"⟩ : ToolDict)])] : McpToolsMap)
    ([("srv", fun _ _ => Except.error "timeout")] : SessionMap)
    (ToolUse.mk "x" "args") "srv" (fun _ _ => Except.error "timeout")
    "timeout" (by decide) rfl rfl).2

/-- C5: when no registered connection's stored descriptor set contains the
requested name, call_tool returns the tool-not-found error payload and
performs no session call at all. -/
theorem c5_tool_not_found (mcp_tools : McpToolsMap)
    (mcp_sessions : SessionMap) (tool_use : ToolUse)
    (h : ∀ p ∈ mcp_tools,
      p.2.any (fun tool => tool.name == tool_use.name) = false) :
    call_tool mcp_tools mcp_sessions tool_use
      = ⟨json_dumps_error
          ("Tool " ++ tool_use.name ++ " not found in any MCP connection"),
         []⟩ := by
  have hf := find_mcp_for_tool_none h
  simp only [call_tool, call_tool_try, hf]

/-- C5 witness: one connection advertising only another tool; the request
for ghost yields the not-found payload with zero session calls. -/
theorem c5_tool_not_found_witness :
    (∀ p ∈ ([("srv", [(⟨"other", "d", "s"⟩ : ToolDict)])] : McpToolsMap),
        p.2.any (fun tool => tool.name == (ToolUse.mk "ghost" "args").name)
          = false)
  ∧ call_tool ([("srv", [(⟨"other", "d", "s"⟩ : ToolDict)])] : McpToolsMap)
      ([] : SessionMap) (ToolUse.mk "ghost" "args")
      = ⟨json_dumps_error
          ("Tool " ++ (ToolUse.mk "ghost" "args").name
            ++ " not found in any MCP connection"), []⟩ := by
  refine ⟨by decide, ?_⟩
  exact c5_tool_not_found
    ([("srv", [(⟨"other", "d", "s"⟩ : ToolDict)])] : McpToolsMap)
    ([] : SessionMap) (ToolUse.mk "ghost" "args") (by decide)

/-- C6: when the name resolves to a connection but that connection has no
entry in mcp_sessions at lookup time, call_tool returns the session-not-found
error payload and performs no session call — in particular it never retries
the invocation on any other connection advertising the same name. -/
theorem c6_session_unavailable (mcp_tools : McpToolsMap)
    (mcp_sessions : SessionMap) (tool_use : ToolUse) (mcp_name : String)
    (h1 : find_mcp_for_tool mcp_tools tool_use.name = some mcp_name)
    (h2 : dict_get mcp_sessions mcp_name = none) :
    call_tool mcp_tools mcp_sessions tool_use
      = ⟨json_dumps_error ("MCP session " ++ mcp_name ++ " not found"),
         []⟩ := by
  simp only [call_tool, call_tool_try, h1, h2]

/-- C6 witness: both a and b advertise x (b even has a live session), a
resolves first but has no session; the session-not-found payload is returned
and no session — in particular not b, which advertises the same tool — is
called. -/
theorem c6_session_unavailable_witness :
    find_mcp_for_tool
      ([("a", [⟨"x", "d", "s"⟩]), ("b", [⟨"x", "d", "s"⟩])] : McpToolsMap)
      (ToolUse.mk "x" "args").name = some "a"
  ∧ dict_get ([("b", fun _ _ => Except.ok "out")] : SessionMap) "a" = none
  ∧ call_tool
      ([("a", [⟨"x", "d", "s"⟩]), ("b", [⟨"x", "d", "s"⟩])] : McpToolsMap)
      ([("b", fun _ _ => Except.ok "out")] : SessionMap)
      (ToolUse.mk "x" "args")
      = ⟨json_dumps_error ("MCP session " ++ "a" ++ " not found"), []⟩ := by
  refine ⟨by decide, rfl, ?_⟩
  exact c6_session_unavailable
    ([("a", [⟨"x", "d", "s"⟩]), ("b", [⟨"x", "d", "s"⟩])] : McpToolsMap)
    ([("b", fun _ _ => Except.ok "out")] : SessionMap)
    (ToolUse.mk "x" "args") "a" (by decide) rfl

/-- C7: in a turn with zero tool-call requests — the model requests no tool
calls during the turn, so the auto function-calling rounds of the service
append nothing to the history in place (svc_appended = []) and the returned
final response carries no tool-call items — the history grows by exactly
two messages, the user input followed by the assistant response, and
on_message performs zero call_tool (router) invocations.  (In a turn with
tool rounds, svc_appended is nonempty and the history grows by more.) -/
theorem c7_round_trip (history0 : Option (List ChatMessage))
    (logs0 : List String) (msg_content : String)
    (svc_appended : List ChatMessage) (response : ChatResponse)
    (svc_logs : List String) (ha : svc_appended = [])
    (hz : response.tool_calls = []) :
    (on_message history0 logs0 msg_content svc_appended
        (Except.ok response) svc_logs).history
      = (history0.getD [])
        ++ [⟨Role.user, msg_content⟩, ⟨Role.assistant, response.content⟩]
  ∧ (on_message history0 logs0 msg_content svc_appended
        (Except.ok response) svc_logs).call_tool_invocations = 0 := by
  subst ha
  constructor
  · cases history0 <;> simp [on_message]
  · cases history0 <;> rfl

/-- C7 witness: a concrete turn in which the service appended nothing (no
tool rounds) and the response is tool-call-free appends exactly the user
and assistant messages and performs zero call_tool invocations. -/
theorem c7_round_trip_witness :
    ([] : List ChatMessage) = []
  ∧ (ChatResponse.mk "final answer" []).tool_calls = []
  ∧ (on_message (some []) ["stale"] "hello" []
        (Except.ok (ChatResponse.mk "final answer" [])) ["svc log"]).history
      = [⟨Role.user, "hello"⟩, ⟨Role.assistant, "final answer"⟩]
  ∧ (on_message (some []) ["stale"] "hello" []
        (Except.ok (ChatResponse.mk "final answer" []))
        ["svc log"]).call_tool_invocations = 0 := by
  have h := c7_round_trip (some []) ["stale"] "hello" []
    (ChatResponse.mk "final answer" []) ["svc log"] rfl rfl
  exact ⟨rfl, rfl, by simpa using h.1, h.2⟩

/-- C8: the capturing handler is cleared at the start of the turn (before
the model call), so whatever logs were held from earlier turns, the logs
after the turn are exactly the records emitted during this turn's model
call — on both the success and the failure path, and whatever the service
appended to the history during its tool rounds — and never contain entries
of the previous turn. -/
theorem c8_trace_isolation (history0 : Option (List ChatMessage))
    (logs0 : List String) (msg_content : String)
    (svc_appended : List ChatMessage)
    (svc_result : Except String ChatResponse) (svc_logs : List String) :
    (on_message history0 logs0 msg_content svc_appended svc_result
        svc_logs).logs = svc_logs := by
  cases svc_result <;> simp [on_message]

/-- C9 counterexample: a disconnect event whose plugin teardown raises — the
path the except handler on src/main.py line 393 exists for — leaves the
mcp_plugins entry in place (only mcp_tools is cleaned), so on_mcp_disconnect
does not on every disconnect event remove the connection's entry from
mcp_plugins. -/
theorem c9_plugin_retention_counterexample :
    (on_mcp_disconnect
        ⟨[("srv", [(⟨"t", "d", "s"⟩ : ToolDict)])], [("srv", "srv")], ["srv"]⟩
        "srv" (Except.error "network failure")).mcp_plugins
      = [("srv", "srv")]
  ∧ (on_mcp_disconnect
        ⟨[("srv", [(⟨"t", "d", "s"⟩ : ToolDict)])], [("srv", "srv")], ["srv"]⟩
        "srv" (Except.error "network failure")).mcp_tools = [] := by
  exact ⟨rfl, rfl⟩

/-- C9 (amended): on_mcp_disconnect removes the connection's mcp_tools
entry; it removes the mcp_plugins entry provided the plugin teardown call
does not raise (when it raises, the entry survives); on no path does it
remove anything from the kernel plugin collection, which is monotonically
non-decreasing across any sequence of connect/disconnect events — so a
disconnected server's plugin stays in the model-facing kernel catalog. -/
theorem c9_kernel_frame_amended (s : AppState) (connection_name : String)
    (r : Except String Unit) (hT : nodup_keys s.mcp_tools)
    (hP : nodup_keys s.mcp_plugins) (hr : r = Except.ok ()) :
    (∀ q, (on_mcp_disconnect s connection_name q).kernel_plugins
        = s.kernel_plugins)
  ∧ dict_get (on_mcp_disconnect s connection_name r).mcp_tools
      connection_name = none
  ∧ dict_get (on_mcp_disconnect s connection_name r).mcp_plugins
      connection_name = none
  ∧ (∀ evs x, x ∈ s.kernel_plugins
        → x ∈ (apply_events s evs).kernel_plugins) := by
  refine ⟨fun q => on_mcp_disconnect_kernel_frame s connection_name q,
    dict_get_none_of_not_mem
      (on_mcp_disconnect_tools_gone s connection_name r hT), ?_,
    fun evs x hx => apply_events_kernel_mono evs s x hx⟩
  rw [hr]
  exact on_mcp_disconnect_plugins_gone s connection_name hP

/-- C9 witness: a concrete connected state; after a clean disconnect the two
session maps drop the entry while the kernel still lists the plugin. -/
theorem c9_kernel_frame_amended_witness :
    nodup_keys
      (([("srv", [(⟨"t", "d", "s"⟩ : ToolDict)])] : McpToolsMap))
  ∧ nodup_keys ([("srv", "srv")] : List (String × String))
  ∧ (Except.ok () : Except String Unit) = Except.ok ()
  ∧ (on_mcp_disconnect
        ⟨[("srv", [(⟨"t", "d", "s"⟩ : ToolDict)])], [("srv", "srv")], ["srv"]⟩
        "srv" (Except.ok ())).kernel_plugins = ["srv"]
  ∧ dict_get (on_mcp_disconnect
        ⟨[("srv", [(⟨"t", "d", "s"⟩ : ToolDict)])], [("srv", "srv")], ["srv"]⟩
        "srv" (Except.ok ())).mcp_plugins "srv" = none := by
  have h := c9_kernel_frame_amended
    ⟨[("srv", [(⟨"t", "d", "s"⟩ : ToolDict)])], [("srv", "srv")], ["srv"]⟩
    "srv" (Except.ok ()) (by decide) (by decide) rfl
  exact ⟨by decide, by decide, rfl, h.1 (Except.ok ()), h.2.2.1⟩

/-- C10: extract_mcp_tools is index-wise exact — the output has the same
length as the input and its i-th element is precisely the three-field
dictionary built from the i-th input tool; nothing is dropped, duplicated,
reordered, or altered. -/
theorem c10_extract_preserves (tools_list : List McpTool) :
    (extract_mcp_tools tools_list).length = tools_list.length
  ∧ ∀ i (h : i < tools_list.length),
      (extract_mcp_tools tools_list).get
          ⟨i, by simpa [extract_mcp_tools] using h⟩
        = ⟨(tools_list.get ⟨i, h⟩).name, (tools_list.get ⟨i, h⟩).description,
           (tools_list.get ⟨i, h⟩).inputSchema⟩ := by
  refine ⟨by simp [extract_mcp_tools], ?_⟩
  intro i h
  simp [extract_mcp_tools]

/-- C10 witness: a two-tool list is mapped length- and position-exactly. -/
theorem c10_extract_preserves_witness :
    (0 : Nat) < ([⟨"t", "d", "s"⟩, ⟨"u", "e", "r"⟩] : List McpTool).length
  ∧ (extract_mcp_tools
      ([⟨"t", "d", "s"⟩, ⟨"u", "e", "r"⟩] : List McpTool)).length = 2
  ∧ (extract_mcp_tools
      ([⟨"t", "d", "s"⟩, ⟨"u", "e", "r"⟩] : List McpTool)).get ⟨0, by decide⟩
      = ⟨"t", "d", "s"⟩ := by
  have h := c10_extract_preserves ([⟨"t", "d", "s"⟩, ⟨"u", "e", "r"⟩] :
    List McpTool)
  exact ⟨by decide, h.1, h.2 0 (by decide)⟩

end SkMcp
